import Mathlib

/-!
Verification development for the bevytos demo (src/src/app.rs): a Leptos
front end bridged to a Bevy simulation running in a browser canvas.
Definitions are shallow embeddings of the repository code; components
whose implementation lives in the external frameworks (the channel of
leptos_bevy_canvas, the Bevy scheduler conventions) are modelled from the
spec and marked as such in their doc comments.
-/

namespace Bevytos

/-- TextEvent (src/src/app.rs, lines 66-69): the cross-framework event
record carrying one text field. -/
structure TextEvent where
  text : String
deriving DecidableEq, Repr

/-- Outcome of the sender side of the bridge channel: the Result value of
the Rust send call, Ok or SendError. -/
inductive SendResult where
  | ok
  | err
deriving DecidableEq, Repr

/-- Modelled from the spec: the bridge channel allocated by event_l2b in
the external leptos_bevy_canvas crate (not under src/). It is a
single-producer single-consumer unbounded FIFO queue of TextEvent values,
together with whether the receiver is still attached. -/
structure Bridge where
  queue : List TextEvent
  receiverAlive : Bool
deriving DecidableEq, Repr

/-- Modelled from the spec: event_l2b (called at src/src/app.rs line 78)
allocates a fresh empty channel whose receiver is attached. -/
def event_l2b : Bridge := Bridge.mk [] true

/-- Modelled from the spec: send enqueues the value at the back when the
receiver is attached (unbounded queue, never blocking), and returns an
error without enqueuing anything when the receiver has been torn down. -/
def Bridge.send (b : Bridge) (e : TextEvent) : Bridge × SendResult :=
  if b.receiverAlive then (Bridge.mk (b.queue ++ [e]) true, SendResult.ok)
  else (b, SendResult.err)

/-- Modelled from the spec: page unmount tears the receiver down and
discards the in-flight queued events. -/
def Bridge.teardown (b : Bridge) : Bridge := Bridge.mk [] false

/-- Modelled from the spec: the per-frame drain pops every currently
enqueued value in FIFO order, leaving the channel empty. -/
def Bridge.drain (b : Bridge) : Bridge × List TextEvent :=
  (Bridge.mk [] b.receiverAlive, b.queue)

/-- The input handler on_input of the wasm32 CanvasPage (src/src/app.rs,
lines 81-87): sends exactly one TextEvent whose text field is exactly the
current value of the input element (event_target_value, untransformed)
and discards the send result with .ok(), so no error reaches the UI. -/
def on_input (b : Bridge) (value : String) : Bridge :=
  (b.send (TextEvent.mk value)).1

/-- A sequence of plain sends on the sender side of the bridge. -/
def sendAll (b : Bridge) (es : List TextEvent) : Bridge :=
  es.foldl (fun b e => (b.send e).1) b

/-- The three kinds of scene entity spawned by setup_scene. -/
inductive EntityKind where
  | cube
  | pointLight
  | camera
deriving DecidableEq, Repr

/-- A spawned entity: its kind and the translation of its Transform
component. The floating-point literals in the source are exact and are
modelled as rationals; mesh, material and light parameters are carried by
the kind. -/
structure Entity where
  kind : EntityKind
  translation : ℚ × ℚ × ℚ
deriving DecidableEq, Repr

/-- The simulation state visible to the systems of this repository:
spawned entities, the two asset resources touched by setup_scene
(modelled by their element counts), the Events queue for TextEvent, and
the log written by the info macro. -/
structure SimState where
  entities : List Entity
  meshes : Nat
  materials : Nat
  events : List TextEvent
  log : List String
deriving DecidableEq, Repr

/-- setup_scene (src/src/app.rs, lines 117-148): adds one cuboid mesh and
one standard material to the asset resources and spawns three entities:
the cube at (0, 0.5, 0), the point light at (4, 8, 4) and the camera at
(3, 3, 6). -/
def setup_scene (s : SimState) : SimState :=
  SimState.mk
    (s.entities ++
      [Entity.mk EntityKind.cube (0, 1/2, 0),
       Entity.mk EntityKind.pointLight (4, 8, 4),
       Entity.mk EntityKind.camera (3, 3, 6)])
    (s.meshes + 1) (s.materials + 1) s.events s.log

/-- set_text (src/src/app.rs, lines 111-115): reads every queued
TextEvent and produces one log line per event, in order, containing the
event text; it touches nothing else. -/
def set_text (events : List TextEvent) : List String :=
  events.map (fun e => "Got text from Leptos: " ++ e.text)

/-- Window configuration set by init_bevy_app (src/src/app.rs,
lines 152-161): canvas selector and logical resolution. The source
literals 400.0 and 300.0 are exact integers. -/
structure WindowConfig where
  canvas : Option String
  resolution : Nat × Nat
deriving DecidableEq, Repr

/-- Identifiers of the two systems this repository registers. -/
inductive SystemId where
  | setupScene
  | setText
deriving DecidableEq, Repr

/-- The Bevy app as configured by init_bevy_app: window, whether the
Leptos receiver is imported as an event source, and the two schedules. -/
structure BevyApp where
  window : WindowConfig
  importsLeptosReceiver : Bool
  startupSchedule : List SystemId
  updateSchedule : List SystemId
deriving DecidableEq, Repr

/-- init_bevy_app (src/src/app.rs, lines 152-167): primary window bound
to the canvas selector with fixed 400 by 300 resolution, the Leptos
receiver imported, setup_scene registered in the Startup schedule and
set_text in the Update schedule. -/
def init_bevy_app : BevyApp :=
  BevyApp.mk (WindowConfig.mk (some "#bevy_canvas") (400, 300)) true
    [SystemId.setupScene] [SystemId.setText]

/-- Interpretation of one registered system on the simulation state.
set_text (whose only parameter is an EventReader) reads the event queue
and appends its log lines; it can write nothing else. -/
def runSystem : SystemId → SimState → SimState
  | SystemId.setupScene, s => setup_scene s
  | SystemId.setText, s =>
      SimState.mk s.entities s.meshes s.materials s.events
        (s.log ++ set_text s.events)

/-- Modelled from the spec: one Running-state tick of the simulation
scheduler. The bridge is drained into the Events queue for TextEvent,
the Update schedule runs, and the events read this frame are cleared by
the host engine (read, not peek). -/
def tick (b : Bridge) (s : SimState) : Bridge × SimState :=
  let drained := b.drain
  let s1 := SimState.mk s.entities s.meshes s.materials
    (s.events ++ drained.2) s.log
  let s2 := init_bevy_app.updateSchedule.foldl (fun st sys => runSystem sys st) s1
  (drained.1, SimState.mk s2.entities s2.meshes s2.materials [] s2.log)

/-- The empty simulation state before the first schedule runs. -/
def initState : SimState := SimState.mk [] 0 0 [] []

/-- Modelled from the spec: the transition from Built-not-started to
Running executes the Startup schedule exactly once. -/
def startup (s : SimState) : SimState :=
  init_bevy_app.startupSchedule.foldl (fun st sys => runSystem sys st) s

/-- State of the bridge and the simulation after startup and n ticks. -/
def run (b : Bridge) : Nat → Bridge × SimState
  | 0 => (b, startup initState)
  | n + 1 => tick (run b n).1 (run b n).2

/-- HomePage counter cell (src/src/app.rs, line 53): an i32 signal
initialised to 0, represented by its 32-bit bit pattern (a Nat below
2 ^ 32). -/
def count_init : Nat := 0

/-- The click handler (src/src/app.rs, line 54): increments the i32 cell;
32-bit arithmetic wraps modulo 2 ^ 32. -/
def on_click (c : Nat) : Nat := (c + 1) % 2 ^ 32

/-- Stored counter bit pattern after the click handler fired k times. -/
def count_after : Nat → Nat
  | 0 => count_init
  | k + 1 => on_click (count_after k)

/-- The signed value an i32 bit pattern renders as. -/
def displayed (c : Nat) : Int :=
  if c < 2 ^ 31 then (c : Int) else (c : Int) - 2 ^ 32

/-- Execution targets distinguished by the cfg attributes on CanvasPage:
the wasm32 browser target and every other target. -/
inductive Target where
  | wasm32
  | other
deriving DecidableEq, Repr

/-- What a CanvasPage variant renders and constructs. -/
structure CanvasPageView where
  rendersTextInput : Bool
  inputHandler : Option (Bridge → String → Bridge)
  mountsBevyCanvas : Bool
  createsBridge : Bool
  placeholder : Option String

/-- CanvasPage (src/src/app.rs, lines 74-95 for the wasm32 target and
lines 100-108 otherwise): on wasm32 it creates the bridge, renders a text
input whose handler is on_input, and mounts the Bevy canvas; on any other
target it renders only the static placeholder and constructs nothing. -/
def CanvasPage : Target → CanvasPageView
  | Target.wasm32 => CanvasPageView.mk true (some on_input) true true none
  | Target.other =>
      CanvasPageView.mk false none false false
        (some "Bevy Canvas is only available on the client side.")

/-- The view selected by the router for a requested path. -/
inductive View where
  | homePage
  | canvasPage
  | fallback (message : String)
deriving DecidableEq, Repr

/-- The App router (src/src/app.rs, lines 39-46): the root path (empty
segment list) maps to HomePage, the single segment canvas maps to
CanvasPage, and any other path renders only the fallback text. -/
def App_route (path : List String) : View :=
  if path = [] then View.homePage
  else if path = ["canvas"] then View.canvasPage
  else View.fallback "Page not found."

/- ------------------------- theorems ------------------------- -/

/-- Sends on a live channel append to the queue in order and keep the
receiver attached. -/
theorem sendAll_live (es : List TextEvent) :
    ∀ q : List TextEvent, sendAll (Bridge.mk q true) es = Bridge.mk (q ++ es) true := by
  induction es with
  | nil => intro q; simp [sendAll]
  | cons e es ih =>
      intro q
      have h1 : sendAll (Bridge.mk q true) (e :: es)
          = sendAll (Bridge.mk (q ++ [e]) true) es := by
        simp [sendAll, Bridge.send]
      rw [h1, ih]
      simp

/-- C1: every sequence of N text values sent through the bridge before a
single drain is drained value for value in the same order as sent;
nothing is duplicated or dropped. -/
theorem c1_bridge_fifo (es : List TextEvent) :
    ((sendAll event_l2b es).drain).2 = es := by
  rw [event_l2b, sendAll_live es []]
  simp [Bridge.drain]

/-- C2: after the receiver is torn down, the underlying send fails, the
input handler discards that failure so no error reaches the UI layer and
the channel is left unchanged, and a subsequent drain yields nothing, so
the value never appears in any later drain. -/
theorem c2_send_after_teardown (b : Bridge) (v : String) :
    ((Bridge.teardown b).send (TextEvent.mk v)).2 = SendResult.err ∧
    on_input (Bridge.teardown b) v = Bridge.teardown b ∧
    ((on_input (Bridge.teardown b) v).drain).2 = [] :=
  ⟨rfl, rfl, rfl⟩

/-- C3: on a tick the per-frame routine reads every TextEvent queued for
this frame and logs each text in order; afterwards the event queue and
the channel are empty, so a second tick with nothing new sent logs
nothing further (read, not peek), and with zero events set_text performs
no action. -/
theorem c3_tick_reads_all (b : Bridge) (s : SimState) :
    (tick b s).2.log = s.log ++ set_text (s.events ++ b.queue) ∧
    (tick b s).2.events = [] ∧
    (tick b s).1.queue = [] ∧
    (tick (tick b s).1 (tick b s).2).2.log = (tick b s).2.log ∧
    set_text [] = [] := by
  refine ⟨?_, ?_, ?_, ?_, ?_⟩ <;>
    simp [tick, runSystem, init_bevy_app, Bridge.drain, set_text]

/-- The stored counter bit pattern after k clicks is k modulo 2 ^ 32. -/
theorem count_after_mod (k : Nat) : count_after k = k % 2 ^ 32 := by
  induction k with
  | zero => rfl
  | succ k ih =>
      have h32 : (2 : Nat) ^ 32 = 4294967296 := by norm_num
      rw [count_after, on_click, ih, h32]
      omega

/-- C4 counterexample: after 2 ^ 31 clicks the stored i32 has wrapped
into the negative range, so the displayed count is not 2 ^ 31. -/
theorem c4_counterexample :
    displayed (count_after (2 ^ 31)) = -(2 ^ 31) ∧
    displayed (count_after (2 ^ 31)) ≠ ((2 ^ 31 : Nat) : Int) := by
  have h := count_after_mod (2 ^ 31)
  have h31 : (2 : Nat) ^ 31 % 2 ^ 32 = 2 ^ 31 := by norm_num
  rw [h, h31]
  constructor
  · rw [displayed]
    norm_num
  · rw [displayed]
    norm_num

/-- C4 (amended): the counter cell starts at 0 and, for every k strictly
below 2 ^ 31, after the click handler fired k times the displayed count
is exactly k; the code enforces no explicit bound, the only limit being
the i32 width. -/
theorem c4_counter (k : Nat) (h : k < 2 ^ 31) :
    displayed count_init = 0 ∧ displayed (count_after k) = (k : Int) := by
  constructor
  · rfl
  · have hk : k % 2 ^ 32 = k := Nat.mod_eq_of_lt (by omega)
    rw [count_after_mod, hk, displayed, if_pos h]

/-- C4 witness: five clicks display five. -/
theorem c4_counter_witness :
    5 < 2 ^ 31 ∧
    (displayed count_init = 0 ∧ displayed (count_after 5) = (5 : Int)) :=
  ⟨by norm_num, c4_counter 5 (by norm_num)⟩

/-- C5: on the wasm32 target the canvas page renders the text input with
on_input as its handler, creates the bridge and mounts the simulation
canvas; on every other target it renders only the static placeholder and
constructs no bridge and no simulation. -/
theorem c5_canvas_page_variants :
    (CanvasPage Target.wasm32).rendersTextInput = true ∧
    (CanvasPage Target.wasm32).inputHandler = some on_input ∧
    (CanvasPage Target.wasm32).createsBridge = true ∧
    (CanvasPage Target.wasm32).mountsBevyCanvas = true ∧
    (CanvasPage Target.wasm32).placeholder = none ∧
    (CanvasPage Target.other).rendersTextInput = false ∧
    (CanvasPage Target.other).inputHandler = none ∧
    (CanvasPage Target.other).createsBridge = false ∧
    (CanvasPage Target.other).mountsBevyCanvas = false ∧
    (CanvasPage Target.other).placeholder =
      some "Bevy Canvas is only available on the client side." :=
  ⟨rfl, rfl, rfl, rfl, rfl, rfl, rfl, rfl, rfl, rfl⟩

/-- A tick never changes the entity list. -/
theorem tick_entities (b : Bridge) (s : SimState) :
    (tick b s).2.entities = s.entities := by
  simp [tick, runSystem, init_bevy_app]

/-- C6: for every number of ticks, the entity list is exactly the three
fixed entities (cube, point light, camera) spawned by setup_scene during
the single startup run; no later operation mutates or destroys them. -/
theorem c6_scene_fixed (b : Bridge) (n : Nat) :
    (run b n).2.entities =
      [Entity.mk EntityKind.cube (0, 1/2, 0),
       Entity.mk EntityKind.pointLight (4, 8, 4),
       Entity.mk EntityKind.camera (3, 3, 6)] ∧
    ((run b n).2.entities).length = 3 := by
  have hbase : (run b 0).2.entities =
      [Entity.mk EntityKind.cube (0, 1/2, 0),
       Entity.mk EntityKind.pointLight (4, 8, 4),
       Entity.mk EntityKind.camera (3, 3, 6)] := by
    simp [run, startup, initState, init_bevy_app, runSystem, setup_scene]
  induction n with
  | zero => exact ⟨hbase, by rw [hbase]; rfl⟩
  | succ n ih =>
      have hstep : (run b (n + 1)).2.entities = (run b n).2.entities := by
        rw [run]
        exact tick_entities _ _
      exact ⟨by rw [hstep, ih.1], by rw [hstep, ih.1]; rfl⟩

/-- C7: the router maps exactly the root path to the home page and the
canvas path to the canvas page; every other path renders the fallback
not-found text and no other page content. -/
theorem c7_router (p : List String) (h1 : p ≠ []) (h2 : p ≠ ["canvas"]) :
    App_route [] = View.homePage ∧
    App_route ["canvas"] = View.canvasPage ∧
    App_route p = View.fallback "Page not found." := by
  refine ⟨rfl, rfl, ?_⟩
  rw [App_route, if_neg h1, if_neg h2]

/-- C7 witness: an undefined path renders the fallback. -/
theorem c7_router_witness :
    (["nope"] ≠ ([] : List String)) ∧ (["nope"] ≠ ["canvas"]) ∧
    (App_route [] = View.homePage ∧
     App_route ["canvas"] = View.canvasPage ∧
     App_route ["nope"] = View.fallback "Page not found.") :=
  ⟨by decide, by decide, c7_router ["nope"] (by decide) (by decide)⟩

/-- C8: the simulation window is bound to the one fixed canvas selector
and configured at the fixed logical resolution 400 by 300. -/
theorem c8_window_config :
    init_bevy_app.window.canvas = some "#bevy_canvas" ∧
    init_bevy_app.window.resolution = (400, 300) :=
  ⟨rfl, rfl⟩

/-- C9: each DOM input event sends through the bridge exactly one
TextEvent whose text is exactly the current input value, untransformed:
the live queue is extended by that single event and nothing else. -/
theorem c9_on_input_exact (q : List TextEvent) (v : String) :
    on_input (Bridge.mk q true) v = Bridge.mk (q ++ [TextEvent.mk v]) true :=
  rfl

/-- C10: the per-frame routine writes nothing to the simulation state:
a tick leaves every entity and both asset resources unchanged, and its
only effect besides the engine clearing the read events is appending the
set_text log lines. -/
theorem c10_set_text_readonly (b : Bridge) (s : SimState) :
    (tick b s).2.entities = s.entities ∧
    (tick b s).2.meshes = s.meshes ∧
    (tick b s).2.materials = s.materials ∧
    (tick b s).2.log = s.log ++ set_text (s.events ++ b.queue) := by
  refine ⟨?_, ?_, ?_, ?_⟩ <;>
    simp [tick, runSystem, init_bevy_app, Bridge.drain, set_text]

end Bevytos
